import Mathlib

/-!
Shallow embedding of the PySME simulation kernel (`src/sme/_bus.py`,
`src/sme/sme.py`) and verification of the frozen claims about it.

The embedding models Python values in-band: the Python singleton `None`
is one of the values a channel slot can hold, which is exactly how the
source represents an empty slot.  Fallible Python code is embedded as
`Except PyError`.
-/

namespace PySME

/-- Python values as they flow through SME channels and traces.  `Val.none`
is Python's `None`, which the source uses in-band as the empty-slot marker. -/
inductive Val where
  | none
  | int (n : Int)
  | bool (b : Bool)
  | str (s : String)
deriving DecidableEq

/-- The Python exceptions the embedded code can raise.  `illegalRead` and
`illegalWrite` are the SME exceptions from `_exceptions.py`; `typeError`,
`valueError`, `attributeError`, `keyError` and `recursionError` are the
builtin CPython exceptions the embedded statements can raise. -/
inductive PyError where
  | illegalRead (msg : String)
  | illegalWrite (msg : String)
  | invalidType
  | typeError
  | valueError
  | attributeError
  | keyError
  | recursionError
deriving DecidableEq

/-- Python string concatenation `s + x`: succeeds only when `x` is itself a
`str`; concatenating a `str` with `None`, an `int` or a `bool` raises
`TypeError` in CPython. -/
def strConcat (s : String) : Val → Except PyError String
  | Val.str t => .ok (s ++ t)
  | _ => .error .typeError

/-- `_Channel` (`_bus.py` lines 26-52): a double-buffered wire.  `read` is the
committed slot, `write` the pending slot; both hold `None` when empty. -/
structure Channel where
  name : String
  read : Val
  write : Val
deriving DecidableEq

/-- `_Channel.__init__` (`_bus.py` lines 28-31): both slots start as `None`. -/
def freshChannel (name : String) : Channel :=
  { name := name, read := Val.none, write := Val.none }

/-- The `value` property getter (`_bus.py` lines 33-39).  When the committed
slot is `None` the source executes
`raise IllegalReadException("Bus had value " + self.read)`; the argument is
evaluated first, and `"..." + None` raises `TypeError`, so the
`IllegalReadException` is never actually constructed on this path. -/
def Channel.value (c : Channel) : Except PyError Val :=
  if c.read = Val.none then
    match strConcat "Bus had value " c.read with
    | .ok m => .error (.illegalRead m)
    | .error e => .error e
  else
    .ok c.read

/-- The `value` property setter (`_bus.py` lines 41-48).  When the pending
slot is already occupied the source executes
`raise IllegalWriteException("Bus had value " + self.write)`; the message
concatenation succeeds only when the previously written value is a `str`,
otherwise `TypeError` is raised instead. -/
def Channel.setValue (c : Channel) (v : Val) : Except PyError Channel :=
  if c.write = Val.none then
    .ok { c with write := v }
  else
    match strConcat "Bus had value " c.write with
    | .ok m => .error (.illegalWrite m)
    | .error e => .error e

/-- `_Channel.propagate` (`_bus.py` lines 50-52): `self.read = self.write;
self.write = None`. -/
def Channel.propagate (c : Channel) : Channel :=
  { c with read := c.write, write := Val.none }

/-- The type descriptors produced by `Types._classify_type` (`sme.py` lines
40-63): `_Boolean`, `_Signed(name, width)`, `_Unsigned(name, width)`. -/
inductive SMEType where
  | boolean (name : String)
  | signed (name : String) (width : Nat)
  | unsigned (name : String) (width : Nat)
deriving DecidableEq

/-- First code points of the Unicode decimal-digit (category Nd) blocks, per
the Unicode 14.0.0 character database that CPython 3.11 ships.  Every Nd
character sits in a run of ten consecutive code points with digit values
0 through 9, starting at one of these bases. -/
def ndBlockBases : List Nat :=
  [0x30, 0x660, 0x6f0, 0x7c0, 0x966, 0x9e6, 0xa66, 0xae6, 0xb66, 0xbe6,
   0xc66, 0xce6, 0xd66, 0xde6, 0xe50, 0xed0, 0xf20, 0x1040, 0x1090, 0x17e0,
   0x1810, 0x1946, 0x19d0, 0x1a80, 0x1a90, 0x1b50, 0x1bb0, 0x1c40, 0x1c50,
   0xa620, 0xa8d0, 0xa900, 0xa9d0, 0xa9f0, 0xaa50, 0xabf0, 0xff10, 0x104a0,
   0x10d30, 0x11066, 0x110f0, 0x11136, 0x111d0, 0x112f0, 0x11450, 0x114d0,
   0x11650, 0x116c0, 0x11730, 0x118e0, 0x11950, 0x11c50, 0x11d50, 0x11da0,
   0x16a60, 0x16ac0, 0x16b50, 0x1d7ce, 0x1d7d8, 0x1d7e2, 0x1d7ec, 0x1d7f6,
   0x1e140, 0x1e2f0, 0x1e950, 0x1fbf0]

/-- Python's `\d` for `str` patterns: any Unicode decimal digit (category
Nd), not just ASCII `0`-`9`. -/
def isPyDigit (c : Char) : Bool :=
  ndBlockBases.any fun base => decide (base ≤ c.toNat ∧ c.toNat < base + 10)

/-- The digit value of a Unicode decimal digit: its offset inside its Nd
block (0 for a character that is no digit; only applied to digits below). -/
def pyDigitVal (c : Char) : Nat :=
  match ndBlockBases.find? (fun base => decide (base ≤ c.toNat ∧ c.toNat < base + 10)) with
  | some base => c.toNat - base
  | Option.none => 0

/-- Decimal value of a digit list, as computed by Python `int()` on a string
of decimal digits: each character contributes its digit value, base 10
(leading zeros allowed, scripts may be mixed). -/
def digitsToNat (ds : List Char) : Nat :=
  List.foldl (fun acc c => 10 * acc + pyDigitVal c) 0 ds

/-- Python's `$` (without `re.MULTILINE`) matches at the end of the string or
just before a single newline that ends the string; since no other piece of
the tag regex can consume a newline, a tag matches exactly when the tag with
at most one trailing newline removed matches up to its true end. -/
def stripTrailingNewline (cs : List Char) : List Char :=
  if cs.getLast? = some '\n' then cs.dropLast else cs

/-- `Types._classify_type` (`sme.py` lines 69-96).  The source matches the tag
against the regex `^(b|(?:i|u)(?=\d+))((?<=(?:i|u))\d+)?$` and dispatches on
group 1: `b` alone yields `_Boolean`; `i` or `u` must (by the lookahead) be
followed by one or more digits, which (by the anchors) must extend to the end
of the string — up to the single trailing newline `$` tolerates, see
`stripTrailingNewline` — and `int()` of that digit group gives the width,
the digit string's decimal value per `digitsToNat` — `int()` on a matched
`\d+` group never fails, so any digit string (including `0` or `007`) is
accepted.  `\d` is any Unicode Nd digit, see `isPyDigit`.  Any non-matching
tag raises `InvalidTypeException`. -/
def classifyType (n : String) (t : String) : Except PyError SMEType :=
  match stripTrailingNewline t.data with
  | c :: rest =>
      if c = 'b' ∧ rest = [] then .ok (.boolean n)
      else if c = 'i' ∧ rest ≠ [] ∧ rest.all isPyDigit then
        .ok (.signed n (digitsToNat rest))
      else if c = 'u' ∧ rest ≠ [] ∧ rest.all isPyDigit then
        .ok (.unsigned n (digitsToNat rest))
      else .error .invalidType
  | [] => .error .invalidType

/-- One `_clock` invocation issued by `Network.clock`: either a bus propagate
step or a process run step. -/
inductive ClockEvent (α β : Type) where
  | busStep (b : α)
  | procStep (p : β)

/-- `Network.clock` (`sme.py` lines 300-311), modelled as the sequence of
`_clock` invocations it issues on a non-puppeteer network (the `puppeteer`
branches call into the external libsme engine and are outside this model):
`while cycles > 0: for bus in self.busses: bus._clock(...); for fun in
self.funs: fun._clock(); cycles -= 1`.  `busses` and `funs` are in
registration order (appended by `Network.add`). -/
def clockEvents (busses : List α) (funs : List β) : Nat → List (ClockEvent α β)
  | 0 => []
  | Nat.succ k =>
      busses.map ClockEvent.busStep ++ funs.map ClockEvent.procStep
        ++ clockEvents busses funs k

/-- The attribute values stored by `Bus.__init__` (`sme.py` lines 117-124):
strings, `None`, and the channel dictionary. -/
inductive BusAttr where
  | vstr (s : String)
  | vnone
  | vchs (chs : List (String × Channel))
deriving DecidableEq

/-- Python dict/instance-dictionary update: overwrite the binding if the key
exists, append it otherwise. -/
def dictSet (d : List (String × BusAttr)) (k : String) (v : BusAttr) :
    List (String × BusAttr) :=
  match d with
  | [] => [(k, v)]
  | (k', v') :: rest => if k' = k then (k, v) :: rest else (k', v') :: dictSet rest k v

/-- The attributes that class `Bus` defines as getter-only properties
(`sme.py` lines 126-128 define `_trace` with `@property` and no setter). -/
def busGetterOnlyProps : List String := ["_trace"]

/-- Python instance attribute assignment `self.<name> = v` on a `Bus`: a
property without a setter is a data descriptor whose `__set__` raises
`AttributeError`, so assignment to `_trace` is rejected; any other name goes
into the instance dictionary. -/
def busSetattr (d : List (String × BusAttr)) (name : String) (v : BusAttr) :
    Except PyError (List (String × BusAttr)) :=
  if name ∈ busGetterOnlyProps then .error .attributeError
  else .ok (dictSet d name v)

/-- `Bus.__init__` (`sme.py` lines 117-124), executed statement by statement
on a fresh instance dictionary: `self.name = name`, `self.chs = {}`,
`self._trace = None`, `self._parent_name = None`, then the loop filling
`self.chs` with a fresh `_Channel` per name (modelled by its net effect, a
single store of the filled dictionary).  The third statement assigns to the
getter-only property `_trace`, so execution never reaches the statements
after it. -/
def busInit (name : String) (channels : List String) :
    Except PyError (List (String × BusAttr)) :=
  (busSetattr [] "name" (.vstr name)).bind fun d =>
  (busSetattr d "chs" (.vchs [])).bind fun d =>
  (busSetattr d "_trace" .vnone).bind fun d =>
  (busSetattr d "_parent_name" .vnone).bind fun d =>
  busSetattr d "chs" (.vchs (channels.map fun ch => (ch, freshChannel ch)))

/-- The `Bus._trace` property getter (`sme.py` lines 126-128): its body is
`return self._trace`.  A `Bus` instance can never have `_trace` in its
instance dictionary (the assignment in `__init__` is rejected, see
`busInit`), so the lookup resolves to the same property again: the getter
invokes itself until CPython raises `RecursionError`. -/
def busTraceGetter : Except PyError (List (String × List Val)) :=
  .error .recursionError

/-- `Bus._trace_name` (`sme.py` lines 130-131):
`"%s_%s_%s" % (self._parent_name, self.name, chn)`. -/
def traceName (parentName busName chn : String) : String :=
  parentName ++ "_" ++ busName ++ "_" ++ chn

/-- `trace[key].append(v)`: appends to the named column, raising `KeyError`
when the column is absent. -/
def traceAppend (t : List (String × List Val)) (k : String) (v : Val) :
    Except PyError (List (String × List Val)) :=
  match t with
  | [] => .error .keyError
  | (k', vs) :: rest =>
      if k' = k then .ok ((k', vs ++ [v]) :: rest)
      else (traceAppend rest k v).map fun rest' => (k', vs) :: rest'

/-- The per-channel body of `Bus._clock` (`sme.py` lines 140-147):
`ch.propagate()`, then under tracing
`self._trace[self._trace_name(ch.name)].append(ch.value)` with
`except IllegalReadException: ...append(None)`.  Evaluating `self._trace`
goes through `busTraceGetter` and raises before anything is appended; the
append logic after it is kept for fidelity but is dead code in CPython.
Exceptions other than `IllegalReadException` raised by `ch.value` (in
particular the `TypeError` an undriven read actually raises, see
`Channel.value`) would not be caught. -/
def busClockChannel (parentName busName : String) (tracing : Bool)
    (ch : Channel) : Except PyError Channel :=
  let ch' := ch.propagate
  if tracing then
    busTraceGetter.bind fun tr =>
      match ch'.value with
      | .ok v =>
          (traceAppend tr (traceName parentName busName ch'.name) v).map
            fun _ => ch'
      | .error (.illegalRead _) =>
          (traceAppend tr (traceName parentName busName ch'.name) Val.none).map
            fun _ => ch'
      | .error e => .error e
  else
    .ok ch'

/-- `Bus._clock` (`sme.py` lines 140-147): iterate `busClockChannel` over the
owned channels in order. -/
def busClock (parentName busName : String) (tracing : Bool) :
    List Channel → Except PyError (List Channel)
  | [] => .ok []
  | ch :: rest =>
      (busClockChannel parentName busName tracing ch).bind fun ch' =>
        (busClock parentName busName tracing rest).map fun rest' => ch' :: rest'

/-- Lexicographic (code-point) comparison of character lists: exactly the
order Python string comparison uses. -/
def lexLE : List Char → List Char → Bool
  | [], _ => true
  | _ :: _, [] => false
  | a :: as, b :: bs => if a = b then lexLE as bs else decide (a < b)

/-- Key order used by `sorted(self.trace.items(), key=lambda t: t[0])`
(`sme.py` lines 320-321): lexicographic comparison of the column names. -/
def keyLE (a b : String × List Val) : Prop := lexLE a.1.data b.1.data = true

instance : DecidableRel keyLE :=
  fun a b => inferInstanceAs (Decidable (lexLE a.1.data b.1.data = true))

/-- Python `int(x)` applied to a string: optional sign followed by decimal
digits (surrounding whitespace and underscore separators are not modelled);
a non-numeric string raises `ValueError`. -/
def pyIntOfStr (s : String) : Except PyError Int :=
  match s.data with
  | '-' :: ds =>
      if ds ≠ [] ∧ ds.all isPyDigit then .ok (-(digitsToNat ds : Int))
      else .error .valueError
  | '+' :: ds =>
      if ds ≠ [] ∧ ds.all isPyDigit then .ok (digitsToNat ds : Int)
      else .error .valueError
  | ds =>
      if ds ≠ [] ∧ ds.all isPyDigit then .ok (digitsToNat ds : Int)
      else .error .valueError

/-- Python `int(x)` on a recorded trace value: identity on ints, 1/0 on
booleans, string parsing on strs.  (`int(None)` raises `TypeError`; the
source only reaches `int` when `x is not None`.) -/
def pyInt : Val → Except PyError Int
  | .none => .error .typeError
  | .int n => .ok n
  | .bool b => .ok (if b then 1 else 0)
  | .str s => pyIntOfStr s

/-- The cell renderer of the trace writer (`sme.py` lines 327-328):
`"U" if x is None else str(int(x))`. -/
def renderVal (v : Val) : Except PyError String :=
  if v = Val.none then .ok "U"
  else (pyInt v).map fun n => toString n

/-- Length of the shortest column: Python `zip(*cols)` stops at the shortest
input (and `zip()` of no iterables yields nothing). -/
def colsMinLen : List (List Val) → Nat
  | [] => 0
  | [c] => c.length
  | c :: cs => min c.length (colsMinLen cs)

/-- Python `zip(*cols)` over the column value lists (`sme.py` line 324): row
`k` pairs up the `k`-th entry of every column; iteration stops at the
shortest column. -/
def pyZip (cols : List (List Val)) : List (List Val) :=
  (List.range (colsMinLen cols)).map fun k => cols.map fun c => c.getD k Val.none

/-- The trace-emission step of `Network.clock` (`sme.py` lines 313-328),
modelled as the list of lines written to the trace file: sort the trace
items by column name, write the comma-joined column names, then for each
`zip`-row write the comma-joined rendered cells.  (`List.insertionSort` is a
stable sort, as Python's `sorted` is.) -/
def emitTrace (trace : List (String × List Val)) : Except PyError (List String) :=
  let otrace := trace.insertionSort keyLE
  ((pyZip (otrace.map Prod.snd)).mapM fun (vals : List Val) =>
      (vals.mapM renderVal).map (String.intercalate ",")).map
    fun rows => String.intercalate "," (otrace.map Prod.fst) :: rows

/-- The recorded-value forms the claims about the trace file concern: the
undefined marker (`None`) and committed integer or boolean channel values. -/
def Val.isTraceable : Val → Bool
  | .none => true
  | .int _ => true
  | .bool _ => true
  | .str _ => false

/-- Statement-side rendering of a traceable cell: the undefined marker
becomes the literal token `U`, integers their base-10 representation,
booleans `1`/`0`.  (Never applied to `str` values in the theorems below;
that case returns the empty string.) -/
def renderCell : Val → String
  | Val.none => "U"
  | Val.int n => toString n
  | Val.bool b => if b then "1" else "0"
  | Val.str _ => ""

/-! ## Theorems -/

/-- Claim C1 (amended): one-tick latency for every value other than `None`.
If `write(v)` succeeds on a channel, the pending slot holds `v`, `read()`
is unaffected (it still returns the previously committed value, or fails,
exactly as before the write), and after exactly one `propagate()` the read
succeeds and returns exactly `v`.  The amendment excludes `v = None`:
writing `None` leaves the channel undriven (see claim C10), so the read
after the propagate fails instead of returning `None`. -/
theorem c1_one_tick_latency (c : Channel) (v : Val) (c' : Channel)
    (hv : v ≠ Val.none) (hw : c.setValue v = .ok c') :
    c'.write = v ∧ c'.value = c.value ∧ c'.propagate.value = .ok v := by
  unfold Channel.setValue at hw
  split at hw
  · injection hw with h
    subst h
    refine ⟨rfl, rfl, ?_⟩
    simp [Channel.propagate, Channel.value, hv]
  · rcases hstr : strConcat "Bus had value " c.write with m | e <;>
      simp [hstr] at hw

/-- Witness for C1 at a concrete input: a fresh channel, written with the
integer 5. -/
theorem c1_witness :
    Val.int 5 ≠ Val.none
    ∧ (Channel.mk "x" Val.none (Val.int 5)).propagate.value = .ok (Val.int 5) :=
  ⟨by decide, (c1_one_tick_latency (freshChannel "x") (Val.int 5)
      (Channel.mk "x" Val.none (Val.int 5)) (by decide) rfl).2.2⟩

/-- Claim C1 counterexample: the claim as stated fails at `v = None`.  On a
fresh channel `write(None)` succeeds (and leaves the channel state
unchanged), but after one `propagate()` the read does not return `None`: it
fails. -/
theorem c1_counterexample :
    (freshChannel "x").setValue Val.none = .ok (freshChannel "x")
    ∧ (freshChannel "x").propagate.value = .error PyError.typeError
    ∧ ¬ (freshChannel "x").propagate.value = .ok Val.none :=
  ⟨rfl, rfl, fun h => nomatch h⟩

/-- Claim C2: per-tick step order of `Network.clock`.  The sequence of
`_clock` invocations issued by `clock(cycles)` is exactly `cycles`
repetitions of: every registered bus's propagate step, in registration
order, followed by every registered process's run step, in registration
order.  In particular, within each tick every bus step precedes every
process step. -/
theorem c2_clock_step_order {α β : Type} (busses : List α) (funs : List β)
    (cycles : Nat) :
    clockEvents busses funs cycles =
      (List.replicate cycles
        (busses.map ClockEvent.busStep ++ funs.map ClockEvent.procStep)).flatten := by
  induction cycles with
  | zero => rfl
  | succ k ih => simp [clockEvents, List.replicate_succ, List.flatten, ih]

/-- Claim C3: `propagate()` on any channel, in any state, sets the committed
slot to the pending slot and empties the pending slot; a channel not written
since the last propagate becomes undriven after the next propagate (a second
propagate of any channel leaves it undriven, so the read fails rather than
returning a stale value).  Concretely: write 5, propagate, read gives 5;
propagate again without a write, read fails. -/
theorem c3_propagate_commits_and_clears :
    (∀ c : Channel, c.propagate.read = c.write ∧ c.propagate.write = Val.none)
    ∧ (∀ c : Channel, c.propagate.propagate.value = .error PyError.typeError)
    ∧ (freshChannel "x").setValue (Val.int 5) = .ok (Channel.mk "x" Val.none (Val.int 5))
    ∧ (Channel.mk "x" Val.none (Val.int 5)).propagate.value = .ok (Val.int 5)
    ∧ (Channel.mk "x" Val.none (Val.int 5)).propagate.propagate.value
        = .error PyError.typeError :=
  ⟨fun _ => ⟨rfl, rfl⟩, fun _ => rfl, rfl, rfl, rfl⟩

/-- Claim C4 (code bug): reading a channel whose committed slot is empty does
not raise `IllegalReadException` — building the exception message evaluates
`"Bus had value " + None`, which raises `TypeError` first.  Reading a
channel whose committed slot is non-empty returns the committed value (and,
the getter being side-effect free, leaves it in place). -/
theorem c4_undriven_read_typeerror :
    (freshChannel "x").value = .error PyError.typeError
    ∧ (Channel.mk "x" (Val.int 7) Val.none).value = .ok (Val.int 7) :=
  ⟨rfl, rfl⟩

/-- Claim C5 (code bug): a second write in the same cycle does not raise
`IllegalWriteException` when the first written value is not a `str` —
building the exception message evaluates `"Bus had value " + <value>`,
which raises `TypeError`.  Only a `str` first value produces the intended
`IllegalWriteException`.  The first write stores its value, and a write
after an intervening propagate succeeds. -/
theorem c5_double_write_typeerror :
    (freshChannel "x").setValue (Val.int 1) = .ok (Channel.mk "x" Val.none (Val.int 1))
    ∧ (Channel.mk "x" Val.none (Val.int 1)).setValue (Val.int 2)
        = .error PyError.typeError
    ∧ (Channel.mk "x" Val.none (Val.str "a")).setValue (Val.int 2)
        = .error (PyError.illegalWrite "Bus had value a")
    ∧ (Channel.mk "x" Val.none (Val.int 1)).propagate.setValue (Val.int 3)
        = .ok (Channel.mk "x" (Val.int 1) (Val.int 3)) :=
  ⟨rfl, rfl, rfl, rfl⟩

/-- Claim C6 (code bug): `Bus._clock(tracing=True)` never appends anything to
a trace column.  On a bus with one (undriven) channel the method propagates
the channel and then evaluates `self._trace`, whose getter-only property
invokes itself and raises `RecursionError`, which escapes `_clock`; with
tracing disabled the channels are simply propagated. -/
theorem c6_bus_clock_tracing_raises :
    busClock "N" "B" true [freshChannel "c"] = .error PyError.recursionError
    ∧ busClock "N" "B" false [freshChannel "c"]
        = .ok [Channel.mk "c" Val.none Val.none] :=
  ⟨rfl, rfl⟩

/-- Claim C7 counterexample: the claim says a width that is not a positive
integer is rejected with an InvalidType error, but the tag `"i0"` — whose
width 0 is not a positive integer — is accepted as a Signed descriptor of
width 0. -/
theorem c7_zero_width_counterexample :
    classifyType "x" "i0" = .ok (SMEType.signed "x" 0) := rfl

/-- A tag head followed by a nonempty digit string is unchanged by the
trailing-newline strip: a decimal digit is never a newline. -/
theorem stripTrailingNewline_of_digits (c : Char) (ds : List Char)
    (h1 : ds ≠ []) (h2 : ds.all isPyDigit = true) :
    stripTrailingNewline (c :: ds) = c :: ds := by
  rcases List.eq_nil_or_concat ds with rfl | ⟨l, a, rfl⟩
  · exact absurd rfl h1
  · have ha : isPyDigit a = true := List.all_eq_true.mp h2 a (by simp)
    have hlast : (c :: (l ++ [a])).getLast? = some a := by
      rw [← List.cons_append]
      exact List.getLast?_concat _
    simp only [List.concat_eq_append]
    unfold stripTrailingNewline
    rw [hlast, if_neg]
    intro heq
    obtain rfl : a = '\n' := Option.some.inj heq
    exact absurd ha (by decide)

/-- Claim C7 (amended): `"b"` yields a Boolean descriptor; `"i"` or `"u"`
followed by one or more decimal digits (any Unicode Nd digits) yields a
Signed, respectively Unsigned, descriptor whose width is the decimal value
of the digit string (zero and leading zeros included — there is no
positivity check on the width); a single trailing newline is tolerated
(Python's `$` matches just before it); every other string, including `"u"`,
`"i"`, `"x3"` and `"i-1"`, fails with an InvalidType error. -/
theorem c7_classify_amended (n : String) :
    classifyType n "b" = .ok (SMEType.boolean n)
    ∧ (∀ ds : List Char, ds ≠ [] → ds.all isPyDigit = true →
        classifyType n ⟨'i' :: ds⟩ = .ok (SMEType.signed n (digitsToNat ds))
        ∧ classifyType n ⟨'u' :: ds⟩ = .ok (SMEType.unsigned n (digitsToNat ds)))
    ∧ classifyType n "u" = .error PyError.invalidType
    ∧ classifyType n "i" = .error PyError.invalidType
    ∧ classifyType n "x3" = .error PyError.invalidType
    ∧ classifyType n "i-1" = .error PyError.invalidType
    ∧ classifyType n "i0" = .ok (SMEType.signed n 0)
    ∧ classifyType n "b\n" = .ok (SMEType.boolean n)
    ∧ classifyType n "i1\n" = .ok (SMEType.signed n 1)
    ∧ classifyType n "u٥" = .ok (SMEType.unsigned n 5)
    ∧ classifyType n "b\n\n" = .error PyError.invalidType
    ∧ (∀ t : String, classifyType n t ≠ .error PyError.invalidType →
        stripTrailingNewline t.data = ['b']
        ∨ (∃ ds, ds ≠ [] ∧ ds.all isPyDigit = true
            ∧ stripTrailingNewline t.data = 'i' :: ds)
        ∨ (∃ ds, ds ≠ [] ∧ ds.all isPyDigit = true
            ∧ stripTrailingNewline t.data = 'u' :: ds)) := by
  refine ⟨rfl, ?_, rfl, rfl, rfl, rfl, rfl, rfl, rfl, rfl, rfl, ?_⟩
  · intro ds h1 h2
    refine ⟨?_, ?_⟩
    · simp [classifyType, stripTrailingNewline_of_digits 'i' ds h1 h2, h1, h2]
    · simp [classifyType, stripTrailingNewline_of_digits 'u' ds h1 h2, h1, h2]
  · intro t h
    unfold classifyType at h
    rcases hcs : stripTrailingNewline t.data with _ | ⟨c, rest⟩
    · rw [hcs] at h
      exact absurd rfl h
    · rw [hcs] at h
      have h' : (if c = 'b' ∧ rest = []
            then (Except.ok (SMEType.boolean n) : Except PyError SMEType)
          else if c = 'i' ∧ rest ≠ [] ∧ rest.all isPyDigit
            then .ok (.signed n (digitsToNat rest))
          else if c = 'u' ∧ rest ≠ [] ∧ rest.all isPyDigit
            then .ok (.unsigned n (digitsToNat rest))
          else .error .invalidType) ≠ .error PyError.invalidType := h
      by_cases hb : c = 'b' ∧ rest = []
      · obtain ⟨rfl, rfl⟩ := hb
        exact Or.inl rfl
      · rw [if_neg hb] at h'
        by_cases hi : c = 'i' ∧ rest ≠ [] ∧ rest.all isPyDigit
        · obtain ⟨rfl, hne, hdig⟩ := hi
          exact Or.inr (Or.inl ⟨rest, hne, hdig, rfl⟩)
        · rw [if_neg hi] at h'
          by_cases hu : c = 'u' ∧ rest ≠ [] ∧ rest.all isPyDigit
          · obtain ⟨rfl, hne, hdig⟩ := hu
            exact Or.inr (Or.inr ⟨rest, hne, hdig, rfl⟩)
          · rw [if_neg hu] at h'
            exact absurd rfl h'

/-- Witness for C7 at a concrete tag: `"i5"` classifies as Signed of
width 5. -/
theorem c7_witness :
    classifyType "x" ⟨['i', '5']⟩ = .ok (SMEType.signed "x" 5) :=
  ((c7_classify_amended "x").2.1 ['5'] (by decide) (by decide)).1

/-- Claim C9: constructing a local `Bus` always raises.  `Bus.__init__`
assigns to `self._trace`, which the class defines as a getter-only property,
so the assignment raises `AttributeError` for every bus name and channel
list; construction never completes, so no operation of a locally constructed
`Bus` is reachable. -/
theorem c9_local_bus_construction_fails (name : String) (channels : List String) :
    busInit name channels = .error PyError.attributeError := rfl

/-- Claim C10: on a channel whose pending slot is empty, writing `None` is
indistinguishable from not writing at all: the channel state is unchanged,
a subsequent write in the same cycle succeeds (no DoubleWrite failure), and
after the next propagate a read of the channel fails (as an undriven read
does in this code, with the `TypeError` of claim C4) instead of returning
`None`. -/
theorem c10_write_none_is_no_write (c : Channel) (h : c.write = Val.none) :
    c.setValue Val.none = .ok c
    ∧ (∀ v : Val, c.setValue v = .ok { c with write := v })
    ∧ c.propagate.value = .error PyError.typeError := by
  obtain ⟨nm, rd, wr⟩ := c
  obtain rfl : wr = Val.none := h
  exact ⟨rfl, fun _ => rfl, rfl⟩

/-- Witness for C10 at a concrete input: a fresh channel. -/
theorem c10_witness :
    (freshChannel "x").write = Val.none
    ∧ (freshChannel "x").setValue Val.none = .ok (freshChannel "x") :=
  ⟨rfl, (c10_write_none_is_no_write (freshChannel "x") rfl).1⟩

/-- Totality of the lexicographic comparison on character lists. -/
theorem lexLE_total (as : List Char) :
    ∀ bs, lexLE as bs = true ∨ lexLE bs as = true := by
  induction as with
  | nil => intro bs; left; rfl
  | cons a as ih =>
    intro bs
    cases bs with
    | nil => right; rfl
    | cons b bs' =>
      by_cases hab : a = b
      · subst hab
        simp only [lexLE, if_pos rfl]
        exact ih bs'
      · rcases lt_or_gt_of_ne hab with hlt | hgt
        · left; simp [lexLE, hab, hlt]
        · right; simp [lexLE, Ne.symm hab, hgt]

/-- Transitivity of the lexicographic comparison on character lists. -/
theorem lexLE_trans :
    ∀ as bs cs : List Char,
      lexLE as bs = true → lexLE bs cs = true → lexLE as cs = true := by
  intro as
  induction as with
  | nil => intro bs cs _ _; rfl
  | cons a as ih =>
    intro bs cs h1 h2
    cases bs with
    | nil => exact absurd h1 (by simp [lexLE])
    | cons b bs' =>
      cases cs with
      | nil => exact absurd h2 (by simp [lexLE])
      | cons c cs' =>
        simp only [lexLE] at h1 h2 ⊢
        by_cases hab : a = b
        · subst hab
          rw [if_pos rfl] at h1
          by_cases hac : a = c
          · subst hac
            rw [if_pos rfl] at h2 ⊢
            exact ih bs' cs' h1 h2
          · rw [if_neg hac] at h2 ⊢
            exact h2
        · rw [if_neg hab] at h1
          have hab' : a < b := of_decide_eq_true h1
          by_cases hbc : b = c
          · subst hbc
            rw [if_neg hab]
            exact h1
          · rw [if_neg hbc] at h2
            have hbc' : b < c := of_decide_eq_true h2
            have hac : a < c := lt_trans hab' hbc'
            rw [if_neg (ne_of_lt hac)]
            exact decide_eq_true hac

/-- On the value forms the trace claims concern, the source's fallible cell
renderer agrees with the statement-side total renderer. -/
theorem renderVal_eq_renderCell (v : Val) (h : v.isTraceable = true) :
    renderVal v = .ok (renderCell v) := by
  cases v with
  | none => rfl
  | int n => rfl
  | bool b => cases b <;> rfl
  | str s => exact absurd h (by simp [Val.isTraceable])

/-- Rendering a whole row of traceable cells succeeds and yields the
statement-side renderings. -/
theorem mapM_renderVal (vals : List Val)
    (h : ∀ v ∈ vals, v.isTraceable = true) :
    vals.mapM renderVal = .ok (vals.map renderCell) := by
  induction vals with
  | nil => rfl
  | cons v vs ih =>
    have hv := h v (List.mem_cons_self v vs)
    have hvs : ∀ w ∈ vs, w.isTraceable = true :=
      fun w hw => h w (List.mem_cons_of_mem v hw)
    rw [List.mapM_cons, renderVal_eq_renderCell v hv, ih hvs]
    rfl

/-- Rendering every row of traceable cells succeeds and yields the
comma-joined statement-side renderings. -/
theorem mapM_renderRows (rows : List (List Val))
    (h : ∀ vals ∈ rows, ∀ v ∈ vals, v.isTraceable = true) :
    (rows.mapM fun vals => (vals.mapM renderVal).map (String.intercalate ","))
      = .ok (rows.map fun vals => String.intercalate "," (vals.map renderCell)) := by
  induction rows with
  | nil => rfl
  | cons r rs ih =>
    have hr := h r (List.mem_cons_self r rs)
    have hrs : ∀ vals ∈ rs, ∀ v ∈ vals, v.isTraceable = true :=
      fun vals hv => h vals (List.mem_cons_of_mem r hv)
    rw [List.mapM_cons, mapM_renderVal r hr, ih hrs]
    rfl

/-- Every cell of every `zip`-row is traceable when every column cell is
(the out-of-range default of the model is the traceable `None`). -/
theorem pyZip_mem_traceable (cols : List (List Val))
    (h : ∀ c ∈ cols, ∀ v ∈ c, v.isTraceable = true) :
    ∀ vals ∈ pyZip cols, ∀ v ∈ vals, v.isTraceable = true := by
  intro vals hvals v hv
  unfold pyZip at hvals
  obtain ⟨k, _, rfl⟩ := List.mem_map.mp hvals
  obtain ⟨c, hc, rfl⟩ := List.mem_map.mp hv
  by_cases hlen : k < c.length
  · rw [List.getD_eq_getElem c Val.none hlen]
    exact h c hc _ (List.getElem_mem hlen)
  · rw [List.getD_eq_default c Val.none (Nat.le_of_not_lt hlen)]
    rfl

/-- Claim C8: format of the emitted trace lines, for a trace whose recorded
cells are the undefined marker (`None`) or committed integer/boolean channel
values.  The first line is the comma-joined column names sorted
lexicographically; each subsequent line `k` holds, in that same column
order, the `k`-th recorded value of every column, with an undefined
recording rendered as the literal token `U` and every other value rendered
as a base-10 integer (booleans as `1`/`0`). -/
theorem c8_trace_format (trace : List (String × List Val))
    (h : ∀ p ∈ trace, ∀ v ∈ p.2, v.isTraceable = true) :
    emitTrace trace =
      .ok (String.intercalate "," ((trace.insertionSort keyLE).map Prod.fst)
        :: ((pyZip ((trace.insertionSort keyLE).map Prod.snd)).map
             fun vals => String.intercalate "," (vals.map renderCell)))
    ∧ List.Pairwise (fun a b : String => lexLE a.data b.data = true)
        ((trace.insertionSort keyLE).map Prod.fst)
    ∧ (∀ cols : List (List Val), ∀ k : Nat, k < colsMinLen cols →
        (pyZip cols)[k]? = some (cols.map fun c => c.getD k Val.none))
    ∧ renderCell Val.none = "U"
    ∧ (∀ m : Int, renderCell (Val.int m) = toString m)
    ∧ renderCell (Val.bool true) = "1"
    ∧ renderCell (Val.bool false) = "0" := by
  have hS : ∀ p ∈ trace.insertionSort keyLE, ∀ v ∈ p.2, v.isTraceable = true :=
    fun p hp => h p ((List.perm_insertionSort keyLE trace).mem_iff.mp hp)
  have hcols :
      ∀ c ∈ (trace.insertionSort keyLE).map Prod.snd, ∀ v ∈ c, v.isTraceable = true := by
    intro c hc
    obtain ⟨p, hp, rfl⟩ := List.mem_map.mp hc
    exact hS p hp
  refine ⟨?_, ?_, ?_, rfl, fun m => rfl, rfl, rfl⟩
  · unfold emitTrace
    dsimp only
    rw [mapM_renderRows _ (pyZip_mem_traceable _ hcols)]
    rfl
  · haveI : IsTotal (String × List Val) keyLE := ⟨fun a b => lexLE_total _ _⟩
    haveI : IsTrans (String × List Val) keyLE :=
      ⟨fun _ _ _ h1 h2 => lexLE_trans _ _ _ h1 h2⟩
    exact List.Pairwise.map Prod.fst (fun _ _ hab => hab)
      (List.sorted_insertionSort keyLE trace)
  · intro cols k hk
    unfold pyZip
    rw [List.getElem?_map, List.getElem?_range hk]
    rfl

/-- Witness for C8 at a concrete trace with two columns, an undefined cell, a
boolean and a negative integer. -/
theorem c8_witness :
    (∀ p ∈ ([("b", [Val.int 3, Val.none]), ("a", [Val.bool true, Val.int (-2)])]
        : List (String × List Val)), ∀ v ∈ p.2, v.isTraceable = true)
    ∧ emitTrace [("b", [Val.int 3, Val.none]), ("a", [Val.bool true, Val.int (-2)])]
        = .ok ["a,b", "1,3", "-2,U"] :=
  ⟨by decide,
    ((c8_trace_format [("b", [Val.int 3, Val.none]),
        ("a", [Val.bool true, Val.int (-2)])] (by decide)).1).trans
      (congrArg Except.ok (by decide))⟩

end PySME
